import Mathlib

/-!
Shallow embedding of the `sparsh0006/newee` plugin sources:

* `src/packages/plugin-solana-agentkit/src/index.ts` — the
  `TwitterSearchClient` class (trend-to-token generator and
  search-and-reply engager), and the plugin registration file.
* `src/unnamed/part_000` — the `CREATE_TRENDING_TOKEN` action handler and
  its `isTrendingTokenContent` type guard.

External collaborators (social client, language model, cache, blockchain
SDK) are modelled as oracle inputs: each asynchronous call that may reject
is an `Except Unit _` argument, a nondeterministic shuffle is a function
argument, and the cache is explicit state threaded through the model.
JavaScript strings are Lean `String`s (code unit vs. codepoint length
agrees on the ASCII data these claims use).
-/

set_option autoImplicit false

namespace Newee

/-- A primitive JSON value, as produced by `JSON.parse` for a single field.
Used to model the dynamically typed result of parsing a language-model
response, against which the source performs `typeof` checks. -/
inductive JPrim where
  | jstr (s : String)
  | jnum (n : Int)
  | jbool (b : Bool)
  | jnull
  deriving DecidableEq, Repr

/-- Models `typeof v === "string"` on a possibly-absent JSON field
(`none` models `undefined`). -/
def isStringPrim : Option JPrim → Bool
  | some (.jstr _) => true
  | _ => false

/-- Models `typeof v === "number"` on a possibly-absent JSON field. -/
def isNumberPrim : Option JPrim → Bool
  | some (.jnum _) => true
  | _ => false

/-- The string content of a JSON field (defaulting to `""`; only used
after an `isStringPrim` check has succeeded). -/
def asString : Option JPrim → String
  | some (.jstr s) => s
  | _ => ""

/-- ASCII letter, the character class of the regex `[A-Za-z]` in
`validateTokenInfo`. -/
def isAsciiAlpha (c : Char) : Bool :=
  (decide ('A' ≤ c) && decide (c ≤ 'Z')) || (decide ('a' ≤ c) && decide (c ≤ 'z'))

/-- Models `/^[A-Za-z]+$/.test s`: the whole string is one or more ASCII letters. -/
def tickerRegexTest (s : String) : Bool :=
  decide (s.length ≠ 0) && s.data.all isAsciiAlpha

/-- JavaScript `String.prototype.toUpperCase` restricted to one character;
exact on the ASCII letters that `validateTokenInfo` admits. -/
def jsUpperChar (c : Char) : Char :=
  if decide ('a' ≤ c) && decide (c ≤ 'z') then Char.ofNat (c.toNat - 32) else c

/-- JavaScript `s.toUpperCase()` (ASCII fragment). -/
def jsToUpper (s : String) : String :=
  String.mk (s.data.map jsUpperChar)

/-- JavaScript `s.includes(sub)`: `sub` occurs contiguously in `s`. -/
def jsIncludes (s sub : String) : Bool :=
  decide (sub.data <:+: s.data)

/-- The whitespace characters stripped by `String.prototype.trim`
(ASCII fragment: tab, LF, VT, FF, CR, space). -/
def isJsWhitespace (c : Char) : Bool :=
  c.toNat == 9 || c.toNat == 10 || c.toNat == 11 || c.toNat == 12 ||
    c.toNat == 13 || c.toNat == 32

/-- JavaScript `s.trim()`: strip leading and trailing whitespace. -/
def jsTrim (s : String) : String :=
  String.mk (((s.data.dropWhile isJsWhitespace).reverse.dropWhile isJsWhitespace).reverse)

/-! ## Trend-to-token generator (`TwitterSearchClient`, index.ts) -/

/-- The parsed form of the model's token response, before validation:
each expected key of the JSON object, possibly absent or non-string
(`JSON.parse` imposes no shape). `sourceTrend` is assigned by the caller
after parsing, so it is not part of the parsed value. -/
structure RawToken where
  name : Option JPrim
  ticker : Option JPrim
  description : Option JPrim
  imagePrompt : Option JPrim
  deriving DecidableEq, Repr

/-- A validated token concept, as returned by
`getTopTrendAndGenerateToken` (interface `TokenInfo` in index.ts). -/
structure TokenInfo where
  name : String
  ticker : String
  description : String
  imagePrompt : String
  sourceTrend : String
  deriving DecidableEq, Repr

/-- Source `TwitterSearchClient.validateTokenInfo`, checking the conjunction in
source order: `name` is a string of length ≤ 32, `ticker` is a string of
length in [3,5] matching `/^[A-Za-z]+$/`, `description` and `imagePrompt`
are strings. -/
def validateTokenInfo (t : RawToken) : Bool :=
  isStringPrim t.name &&
    decide ((asString t.name).length ≤ 32) &&
    isStringPrim t.ticker &&
    decide (3 ≤ (asString t.ticker).length) &&
    decide ((asString t.ticker).length ≤ 5) &&
    tickerRegexTest (asString t.ticker) &&
    isStringPrim t.description &&
    isStringPrim t.imagePrompt

/-- The trend-scan loop in `getTopTrendAndGenerateToken`: walk the fetched
trends in list order, and select the first whose name is not in the
used-trends log (`isTopicUsed` is `usedTrends.includes(trend.name)`). -/
def selectTrend : List String → List String → Option String
  | [], _ => none
  | t :: ts, used => if used.contains t then selectTrend ts used else some t

/-- Source `TwitterSearchClient.getTopTrendAndGenerateToken`, as a pure function
of its collaborator results. `trendsRes` is the `getTrends()` call
(`.error` = rejected promise, caught by the outer `catch`); `respRes` is
the `generateText` call composed with `JSON.parse` (`.error` = the model
call rejected; `.ok none` = `JSON.parse` threw, caught by the inner
`catch`). Returns the function's result together with the used-trends log
after the call (`cacheUsedTrend` appends only on the success path). -/
def getTopTrendAndGenerateToken
    (trendsRes : Except Unit (List String)) (used : List String)
    (respRes : Except Unit (Option RawToken)) :
    Option TokenInfo × List String :=
  match trendsRes with
  | .error _ => (none, used)
  | .ok trends =>
    match selectTrend trends used with
    | none => (none, used)
    | some tr =>
      match respRes with
      | .error _ => (none, used)
      | .ok none => (none, used)
      | .ok (some raw) =>
        if validateTokenInfo raw then
          (some { name := asString raw.name
                  ticker := jsToUpper (asString raw.ticker)
                  description := asString raw.description
                  imagePrompt := asString raw.imagePrompt
                  sourceTrend := tr },
            used ++ [tr])
        else (none, used)

/-! ## Search-and-reply engager (`TwitterSearchClient`, index.ts) -/

/-- A tweet inside a reply thread; only the author matters to the
thread-exclusion filter. -/
structure SubTweet where
  username : String
  deriving DecidableEq, Repr

/-- A fetched tweet, restricted to the fields the engager's control flow
reads: `id` (matched against the model's selection), `username` (skip own
tweets), `text` (skip empty), and the reply `thread`. -/
structure Tweet where
  id : String
  username : String
  text : String
  thread : List SubTweet
  deriving DecidableEq, Repr

/-- The predicate of `slicedTweets.find` in `engageWithSearchTerms`:
`tweet.id.toString().includes(tweetId) || tweetId.includes(tweet.id.toString())`. -/
def tweetMatches (tweetId : String) (tw : Tweet) : Bool :=
  jsIncludes tw.id tweetId || jsIncludes tweetId tw.id

/-- Resolution of the model's tweet-selection response against the sliced
candidate pool: trim, then first match under bidirectional substring
containment. -/
def findSelectedTweet (response : String) (sliced : List Tweet) : Option Tweet :=
  sliced.find? (tweetMatches (jsTrim response))

/-- The thread-exclusion filter applied when building the selection
prompt: drop every tweet whose `thread` contains a tweet authored by the
agent's own username (`thread.find(t => t.username === this.twitterUsername)`,
kept iff that lookup finds nothing). -/
def threadFilter (botUsername : String) (pool : List Tweet) : List Tweet :=
  pool.filter (fun tw => !(tw.thread.any (fun t => t.username == botUsername)))

/-- The pool the selection prompt is rendered from:
`[...slicedTweets, ...homeTimeline].filter(...)`. -/
def promptPool (botUsername : String) (sliced homeTimeline : List Tweet) : List Tweet :=
  threadFilter botUsername (sliced ++ homeTimeline)

/-- How one engagement pass ends. Every constructor is a normal return of
the `async` function: `caughtError` is the top-level `catch`, `sendFailed`
the inner `catch` around posting the reply, and the rest are the explicit
early `return`s and the success path. -/
inductive PassResult where
  | caughtError
  | noTweets
  | noMatch
  | skipOwn
  | noText
  | noReplyText
  | sendFailed
  | replied (id : String)
  deriving DecidableEq, Repr

/-- The control flow of `TwitterSearchClient.engageWithSearchTerms` after
the search-tweet fetch, as a pure function of its collaborator results.
`shuffle` is the nondeterministic `sort(() => Math.random() - 0.5)`
outcome; `searchRes`, `homeRes`, `selectRes` (tweet-selection model call),
`replyRes` (reply-generation call, reduced to the reply text) and
`sendRes` are the awaited collaborator calls, `.error` meaning a rejected
promise. -/
def engagePassOutcome (botUsername : String) (searchRes : Except Unit (List Tweet))
    (shuffle : List Tweet → List Tweet) (homeRes : Except Unit (List Tweet))
    (selectRes : Except Unit String) (replyRes : Except Unit String)
    (sendRes : Except Unit Unit) : PassResult :=
  match searchRes with
  | .error _ => .caughtError
  | .ok searchTweets =>
    match homeRes with
    | .error _ => .caughtError
    | .ok _homeTimeline =>
      let sliced := (shuffle searchTweets).take 20
      if sliced.isEmpty then .noTweets
      else
        match selectRes with
        | .error _ => .caughtError
        | .ok response =>
          match findSelectedTweet response sliced with
          | none => .noMatch
          | some tw =>
            if tw.username == botUsername then .skipOwn
            else if tw.text == "" then .noText
            else
              match replyRes with
              | .error _ => .caughtError
              | .ok replyText =>
                if replyText == "" then .noReplyText
                else
                  match sendRes with
                  | .error _ => .sendFailed
                  | .ok _ => .replied tw.id

/-- Source `TwitterSearchClient.engageWithSearchTerms` as a pure function of its
collaborator results. `pickIdx` is `Math.floor(Math.random() * topics.length)`
(for an empty topic list it indexes past the end — the source's undefined
search term, modelled as `none`; the source has no guard and still calls
`fetchSearchTweets`). The first component records the `fetchSearchTweets`
invocation: `some term` when the call was made with that search term —
the body reaches the fetch unconditionally, there being no branch between
the topic pick and the fetch — while `none` would mean the fetch never
happened. The second component is the pass outcome. -/
def engageWithSearchTerms (botUsername : String) (topics : List String)
    (pickIdx : Nat) (searchRes : Except Unit (List Tweet))
    (shuffle : List Tweet → List Tweet) (homeRes : Except Unit (List Tweet))
    (selectRes : Except Unit String) (replyRes : Except Unit String)
    (sendRes : Except Unit Unit) : Option (Option String) × PassResult :=
  (some (topics.get? pickIdx),
    engagePassOutcome botUsername searchRes shuffle homeRes selectRes replyRes sendRes)

/-- The fire-and-forget `this.client.twitterClient.getTrends()` call the
pass makes while constructing the reply (index.ts line 399): it is not
awaited and no rejection handler is attached, so the pass's `try`/`catch`
cannot observe its rejection, which surfaces as an unhandled promise
rejection (uncaught and unlogged; fatal under default Node semantics).
`fireTrendsRes` is that promise's outcome. Returns `true` exactly when
such a rejection escapes the pass: the control flow reaches the
reply-construction stage (a candidate was selected, is not the agent's
own, and has text — the same gate as in `engagePassOutcome`) and the
un-awaited call rejects. -/
def engagePassUnhandledRejection (botUsername : String)
    (searchRes : Except Unit (List Tweet)) (shuffle : List Tweet → List Tweet)
    (homeRes : Except Unit (List Tweet)) (selectRes : Except Unit String)
    (fireTrendsRes : Except Unit Unit) : Bool :=
  match searchRes with
  | .error _ => false
  | .ok searchTweets =>
    match homeRes with
    | .error _ => false
    | .ok _homeTimeline =>
      let sliced := (shuffle searchTweets).take 20
      if sliced.isEmpty then false
      else
        match selectRes with
        | .error _ => false
        | .ok response =>
          match findSelectedTweet response sliced with
          | none => false
          | some tw =>
            if tw.username == botUsername then false
            else if tw.text == "" then false
            else
              match fireTrendsRes with
              | .error _ => true
              | .ok _ => false

/-! ## Loop scheduling (`engageWithSearchTermsLoop`, index.ts)

`engageWithSearchTermsLoop` invokes `this.engageWithSearchTerms().then()`
without awaiting it, then immediately calls `setTimeout` with a random
60–120 minute delay. The timer is therefore armed when a pass *starts*,
not when it completes: the start time of pass `k+1` is the start time of
pass `k` plus the `k`-th drawn delay, independently of how long pass `k`
runs or how it ends. -/

/-- Start time of the `k`-th engagement pass, given the sequence of drawn
delays (in any fixed time unit). -/
def passStart (delays : Nat → Nat) : Nat → Nat
  | 0 => 0
  | k + 1 => passStart delays k + delays k

/-- Completion time of the `k`-th pass, given how long each pass runs
(its asynchronous suspensions included). -/
def passEnd (delays durations : Nat → Nat) (k : Nat) : Nat :=
  passStart delays k + durations k

/-- The timer armed by `setTimeout` inside one run of the loop body: it
fires `delay` after `now`, whatever the concurrently running pass did. -/
def nextLoopTime (now delay : Nat) (_outcome : PassResult) : Nat :=
  now + delay

/-! ## CREATE_TRENDING_TOKEN action (src/unnamed/part_000) -/

/-- The parsed form of the model's response in the action handler: the six
expected keys of the JSON object, each possibly absent or of the wrong
type. -/
structure RawContent where
  trend : Option JPrim
  name : Option JPrim
  symbol : Option JPrim
  description : Option JPrim
  uri : Option JPrim
  decimals : Option JPrim
  deriving DecidableEq, Repr

/-- The `isTrendingTokenContent` type guard: `typeof` checks only — five
string fields and a numeric `decimals`. No length or character-class
constraint is checked. -/
def isTrendingTokenContent (c : RawContent) : Bool :=
  isStringPrim c.trend && isStringPrim c.name && isStringPrim c.symbol &&
    isStringPrim c.description && isStringPrim c.uri && isNumberPrim c.decimals

/-- An entry of the `twitter/launched_tokens` cache list (token fields
plus the mint address; the wall-clock timestamp is omitted). -/
structure LaunchedToken where
  content : RawContent
  mintAddress : String
  deriving DecidableEq, Repr

/-- The `CREATE_TRENDING_TOKEN` action handler as a pure function of its
collaborator results. `trendsRes` is `twitterClient.getTrends()` reduced
to trend names; `contentRes` is `generateText` composed with `JSON.parse`
(`.error` = model call rejected, `.ok none` = parse threw); `deployRes` is
`solanaAgentKit.deployToken` reduced to the mint address. Every throw is
caught by the handler's own `catch`, which returns `false`. Returns the
handler's boolean result with the used-trends log and launched-tokens list
after the call. -/
def createTrendingTokenHandler (trendsRes : Except Unit (List String))
    (used : List String) (contentRes : Except Unit (Option RawContent))
    (deployRes : Except Unit String) (launched : List LaunchedToken) :
    Bool × List String × List LaunchedToken :=
  match trendsRes with
  | .error _ => (false, used, launched)
  | .ok trends =>
    match trends.head? with
    | none => (false, used, launched)
    | some topTrend =>
      if used.contains topTrend then (false, used, launched)
      else
        match contentRes with
        | .error _ => (false, used, launched)
        | .ok none => (false, used, launched)
        | .ok (some content) =>
          if isTrendingTokenContent content then
            match deployRes with
            | .error _ => (false, used, launched)
            | .ok mint =>
              (true, used ++ [topTrend], launched ++ [⟨content, mint⟩])
          else (false, used, launched)

/-- One `CREATE_TRENDING_TOKEN` invocation including its completion
callback (part_000 lines 152–161 and 165–170). The handler invokes the
callback inside the `try` on success and inside the `catch` on failure;
`callbackRes` is the callback's behaviour when invoked (`.error` = it
throws, `.ok` also covers the no-callback case). A throw from the
success-path callback is caught by the handler's own `catch`, which then
invokes the callback again — and that second throw, raised inside the
`catch` block, escapes the handler; a throw from the failure-path
callback escapes directly. So the invocation's result is `.ok` of the
handler's boolean exactly when the callback does not throw, and `.error`
(an escaped exception instead of a return value) when it does. The cache
states are those already written when the callback runs. -/
def createTrendingTokenInvocation (trendsRes : Except Unit (List String))
    (used : List String) (contentRes : Except Unit (Option RawContent))
    (deployRes : Except Unit String) (launched : List LaunchedToken)
    (callbackRes : Except Unit Unit) :
    Except Unit Bool × List String × List LaunchedToken :=
  match createTrendingTokenHandler trendsRes used contentRes deployRes launched with
  | (ok, used2, launched2) =>
    match callbackRes with
    | .ok _ => (.ok ok, used2, launched2)
    | .error _ => (.error (), used2, launched2)

/-- Modelled from the spec (§3 TokenConcept, §8): the validity invariant a
ticker/symbol must satisfy — purely alphabetic, length between 3 and 5.
Stated separately from `validateTokenInfo` so the action handler's guard
can be compared against it. -/
def specValidTicker (symbol : String) : Bool :=
  decide (3 ≤ symbol.length) && decide (symbol.length ≤ 5) &&
    symbol.data.all isAsciiAlpha

/-! ## Helper lemmas -/

theorem char_le_iff_toNat {a b : Char} : a ≤ b ↔ a.toNat ≤ b.toNat :=
  ⟨fun h => h, fun h => h⟩

theorem toNat_ofNat_valid {n : Nat} (h : n.isValidChar) : (Char.ofNat n).toNat = n := by
  simp [Char.ofNat, h, Char.ofNatAux, Char.toNat, UInt32.toNat]

theorem isAsciiAlpha_iff {c : Char} :
    isAsciiAlpha c = true ↔
      (65 ≤ c.toNat ∧ c.toNat ≤ 90) ∨ (97 ≤ c.toNat ∧ c.toNat ≤ 122) := by
  simp only [isAsciiAlpha, Bool.or_eq_true, Bool.and_eq_true, decide_eq_true_eq]
  constructor
  · rintro (⟨h1, h2⟩ | ⟨h1, h2⟩)
    · exact Or.inl ⟨char_le_iff_toNat.mp h1, char_le_iff_toNat.mp h2⟩
    · exact Or.inr ⟨char_le_iff_toNat.mp h1, char_le_iff_toNat.mp h2⟩
  · rintro (⟨h1, h2⟩ | ⟨h1, h2⟩)
    · exact Or.inl ⟨char_le_iff_toNat.mpr h1, char_le_iff_toNat.mpr h2⟩
    · exact Or.inr ⟨char_le_iff_toNat.mpr h1, char_le_iff_toNat.mpr h2⟩

theorem jsUpperChar_toNat_of_alpha {c : Char} (h : isAsciiAlpha c = true) :
    65 ≤ (jsUpperChar c).toNat ∧ (jsUpperChar c).toNat ≤ 90 := by
  have ha97 : ('a').toNat = 97 := rfl
  have hz122 : ('z').toNat = 122 := rfl
  rcases isAsciiAlpha_iff.mp h with hu | hl
  · have hcond : (decide ('a' ≤ c) && decide (c ≤ 'z')) = false := by
      have hna : ¬ ('a' ≤ c) := by
        intro hc
        have := char_le_iff_toNat.mp hc
        omega
      simp [hna]
    simp only [jsUpperChar, hcond, if_false, Bool.false_eq_true]
    exact hu
  · have hcond : (decide ('a' ≤ c) && decide (c ≤ 'z')) = true := by
      have h1 : 'a' ≤ c := char_le_iff_toNat.mpr (by omega)
      have h2 : c ≤ 'z' := char_le_iff_toNat.mpr (by omega)
      simp [h1, h2]
    have hvalid : (c.toNat - 32).isValidChar := Or.inl (by omega)
    simp only [jsUpperChar, hcond, if_true]
    rw [toNat_ofNat_valid hvalid]
    omega

theorem jsUpperChar_upper_of_alpha {c : Char} (h : isAsciiAlpha c = true) :
    'A' ≤ jsUpperChar c ∧ jsUpperChar c ≤ 'Z' := by
  have := jsUpperChar_toNat_of_alpha h
  exact ⟨char_le_iff_toNat.mpr this.1, char_le_iff_toNat.mpr this.2⟩

theorem jsToUpper_length (s : String) : (jsToUpper s).length = s.length := by
  show (s.data.map jsUpperChar).length = s.data.length
  simp

theorem jsToUpper_mem_upper {s : String} (h : s.data.all isAsciiAlpha = true) :
    ∀ c ∈ (jsToUpper s).data, 'A' ≤ c ∧ c ≤ 'Z' := by
  intro c hc
  simp only [jsToUpper, String.data] at hc
  rcases List.mem_map.mp hc with ⟨a, ha, rfl⟩
  exact jsUpperChar_upper_of_alpha (List.all_eq_true.mp h a ha)

theorem jsToUpper_all_alpha {s : String} (h : s.data.all isAsciiAlpha = true) :
    (jsToUpper s).data.all isAsciiAlpha = true := by
  rw [List.all_eq_true]
  intro c hc
  have hupper := jsToUpper_mem_upper h c hc
  exact isAsciiAlpha_iff.mpr
    (Or.inl ⟨char_le_iff_toNat.mp hupper.1, char_le_iff_toNat.mp hupper.2⟩)

theorem selectTrend_not_used :
    ∀ (trends used : List String) (t : String),
      selectTrend trends used = some t → t ∉ used := by
  intro trends used
  induction trends with
  | nil => intro t h; simp [selectTrend] at h
  | cons a ts ih =>
    intro t h
    simp only [selectTrend] at h
    by_cases ha : used.contains a = true
    · rw [if_pos ha] at h
      exact ih t h
    · rw [if_neg ha] at h
      injection h with h
      subst h
      intro hmem
      exact ha (List.elem_eq_true_of_mem hmem)

theorem selectTrend_first :
    ∀ (trends used : List String), (∃ t ∈ trends, t ∉ used) →
      ∃ pre t post, trends = pre ++ t :: post ∧ (∀ s ∈ pre, s ∈ used) ∧
        t ∉ used ∧ selectTrend trends used = some t := by
  intro trends used
  induction trends with
  | nil => intro h; simp at h
  | cons a ts ih =>
    intro h
    by_cases ha : a ∈ used
    · have hc : used.contains a = true := List.elem_eq_true_of_mem ha
      have hts : ∃ t ∈ ts, t ∉ used := by
        rcases h with ⟨t, ht, htu⟩
        rcases List.mem_cons.mp ht with rfl | hmem
        · exact absurd ha htu
        · exact ⟨t, hmem, htu⟩
      rcases ih hts with ⟨pre, t, post, heq, hpre, htu, hsel⟩
      refine ⟨a :: pre, t, post, by rw [heq]; rfl, ?_, htu, ?_⟩
      · intro s hs
        rcases List.mem_cons.mp hs with rfl | hmem
        · exact ha
        · exact hpre s hmem
      · simp only [selectTrend, if_pos hc]
        exact hsel
    · have hc : ¬ used.contains a = true := fun hcon => ha (List.mem_of_elem_eq_true hcon)
      exact ⟨[], a, ts, rfl, by simp, ha, by simp only [selectTrend, if_neg hc]⟩

theorem find?_of_filter_eq_singleton {α : Type} (p : α → Bool) :
    ∀ (l : List α) (a : α), l.filter p = [a] → l.find? p = some a := by
  intro l
  induction l with
  | nil => intro a h; simp at h
  | cons x xs ih =>
    intro a h
    by_cases hx : p x = true
    · rw [List.filter_cons_of_pos hx] at h
      injection h with h1 _
      rw [List.find?_cons_of_pos xs hx, h1]
    · rw [List.filter_cons_of_neg (by simpa using hx)] at h
      rw [List.find?_cons_of_neg xs hx]
      exact ih a h

theorem getTopTrend_invalid {trends used : List String} {raw : RawToken}
    (h : validateTokenInfo raw = false) :
    getTopTrendAndGenerateToken (.ok trends) used (.ok (some raw)) = (none, used) := by
  cases hsel : selectTrend trends used with
  | none => simp [getTopTrendAndGenerateToken, hsel]
  | some tr => simp [getTopTrendAndGenerateToken, hsel, h]

theorem validateTokenInfo_facts {raw : RawToken} (h : validateTokenInfo raw = true) :
    (asString raw.name).length ≤ 32 ∧ 3 ≤ (asString raw.ticker).length ∧
      (asString raw.ticker).length ≤ 5 ∧
      (asString raw.ticker).data.all isAsciiAlpha = true := by
  simp only [validateTokenInfo, tickerRegexTest, Bool.and_eq_true, decide_eq_true_eq] at h
  obtain ⟨⟨⟨⟨⟨⟨⟨_, h2⟩, _⟩, h4⟩, h5⟩, _, h6⟩, _⟩, _⟩ := h
  exact ⟨h2, h4, h5, h6⟩

theorem getTopTrend_success
    {trendsRes : Except Unit (List String)} {used : List String}
    {respRes : Except Unit (Option RawToken)} {tok : TokenInfo} {used2 : List String}
    (h : getTopTrendAndGenerateToken trendsRes used respRes = (some tok, used2)) :
    ∃ trends tr raw, trendsRes = .ok trends ∧ selectTrend trends used = some tr ∧
      respRes = .ok (some raw) ∧ validateTokenInfo raw = true ∧
      tok = { name := asString raw.name, ticker := jsToUpper (asString raw.ticker),
              description := asString raw.description,
              imagePrompt := asString raw.imagePrompt, sourceTrend := tr } ∧
      used2 = used ++ [tr] := by
  cases trendsRes with
  | error e => simp [getTopTrendAndGenerateToken] at h
  | ok trends =>
    cases hsel : selectTrend trends used with
    | none => simp [getTopTrendAndGenerateToken, hsel] at h
    | some tr =>
      cases respRes with
      | error e => simp [getTopTrendAndGenerateToken, hsel] at h
      | ok oraw =>
        cases oraw with
        | none => simp [getTopTrendAndGenerateToken, hsel] at h
        | some raw =>
          by_cases hv : validateTokenInfo raw = true
          · simp only [getTopTrendAndGenerateToken, hsel, hv, if_true,
              Prod.mk.injEq, Option.some.injEq] at h
            exact ⟨trends, tr, raw, rfl, hsel, rfl, hv, h.1.symm, h.2.symm⟩
          · rw [Bool.not_eq_true] at hv
            simp [getTopTrendAndGenerateToken, hsel, hv] at h

/-! ## Claims -/

/-- C1: for every trend list containing at least one trend whose name is
absent from the used-trends log, the generator's scan selects the first
such trend in list order, never selects a trend already in the log, and on
trends `["AI", "AI", "Web3"]` with log `["AI"]` it selects `"Web3"`. -/
theorem claim1_first_unused_trend_selected :
    (∀ (trends used : List String), (∃ t ∈ trends, t ∉ used) →
      ∃ pre t post, trends = pre ++ t :: post ∧ (∀ s ∈ pre, s ∈ used) ∧
        t ∉ used ∧ selectTrend trends used = some t) ∧
    (∀ (trends used : List String) (t : String),
      selectTrend trends used = some t → t ∉ used) ∧
    selectTrend ["AI", "AI", "Web3"] ["AI"] = some "Web3" :=
  ⟨selectTrend_first, selectTrend_not_used, by decide⟩

theorem claim1_witness :
    (∃ t ∈ ["AI", "AI", "Web3"], t ∉ (["AI"] : List String)) ∧
    (∃ pre t post, (["AI", "AI", "Web3"] : List String) = pre ++ t :: post ∧
      (∀ s ∈ pre, s ∈ (["AI"] : List String)) ∧ t ∉ (["AI"] : List String) ∧
      selectTrend ["AI", "AI", "Web3"] ["AI"] = some t) :=
  ⟨by decide, claim1_first_unused_trend_selected.1 ["AI", "AI", "Web3"] ["AI"] (by decide)⟩

/-- C2 counterexample: the `CREATE_TRENDING_TOKEN` action accepts and
deploys a concept whose symbol is `"TOOLONG"` (7 letters):
`isTrendingTokenContent` only checks field types, so the handler deploys
the token, returns `true`, and records it, although the symbol violates
the 3–5-letter validity invariant. -/
theorem claim2_counterexample :
    isTrendingTokenContent ⟨some (.jstr "T"), some (.jstr "N"), some (.jstr "TOOLONG"),
        some (.jstr "d"), some (.jstr "u"), some (.jnum 9)⟩ = true ∧
    createTrendingTokenHandler (.ok ["T"]) []
        (.ok (some ⟨some (.jstr "T"), some (.jstr "N"), some (.jstr "TOOLONG"),
          some (.jstr "d"), some (.jstr "u"), some (.jnum 9)⟩)) (.ok "mint") []
      = (true, ["T"], [⟨⟨some (.jstr "T"), some (.jstr "N"), some (.jstr "TOOLONG"),
          some (.jstr "d"), some (.jstr "u"), some (.jnum 9)⟩, "mint"⟩]) ∧
    specValidTicker "TOOLONG" = false :=
  ⟨by decide, by decide, by decide⟩

/-- C2 (amended): every token concept returned by
`getTopTrendAndGenerateToken` satisfies the validity invariant (purely
alphabetic ticker of length 3–5, name of length ≤ 32), and a candidate
failing `validateTokenInfo` is rejected with the cycle aborted; the
`CREATE_TRENDING_TOKEN` action, by contrast, checks only that its six
fields have the right primitive types. -/
theorem claim2_generator_invariant :
    (∀ (trendsRes : Except Unit (List String)) (used : List String)
        (respRes : Except Unit (Option RawToken)) (tok : TokenInfo) (used2 : List String),
        getTopTrendAndGenerateToken trendsRes used respRes = (some tok, used2) →
        specValidTicker tok.ticker = true ∧ tok.name.length ≤ 32) ∧
    (∀ (trends used : List String) (raw : RawToken),
        validateTokenInfo raw = false →
        getTopTrendAndGenerateToken (.ok trends) used (.ok (some raw)) = (none, used)) ∧
    (∀ (c : RawContent), isTrendingTokenContent c = true ↔
        (isStringPrim c.trend = true ∧ isStringPrim c.name = true ∧
         isStringPrim c.symbol = true ∧ isStringPrim c.description = true ∧
         isStringPrim c.uri = true ∧ isNumberPrim c.decimals = true)) := by
  refine ⟨?_, fun _ _ _ h => getTopTrend_invalid h, ?_⟩
  · intro trendsRes used respRes tok used2 h
    rcases getTopTrend_success h with ⟨trends, tr, raw, _, _, _, hv, htok, _⟩
    rcases validateTokenInfo_facts hv with ⟨hname, h3, h5, halpha⟩
    subst htok
    refine ⟨?_, hname⟩
    simp only [specValidTicker, Bool.and_eq_true, decide_eq_true_eq]
    exact ⟨⟨by rw [jsToUpper_length]; exact h3, by rw [jsToUpper_length]; exact h5⟩,
      jsToUpper_all_alpha halpha⟩
  · intro c
    simp [isTrendingTokenContent, Bool.and_eq_true, and_assoc]

theorem claim2_witness :
    ((getTopTrendAndGenerateToken (.ok ["T"]) []
        (.ok (some ⟨some (.jstr "Coin"), some (.jstr "abc"), some (.jstr "d"),
          some (.jstr "p")⟩))
      = (some ⟨"Coin", "ABC", "d", "p", "T"⟩, ["T"])) ∧
      specValidTicker ("ABC" : String) = true ∧ ("Coin" : String).length ≤ 32) ∧
    (validateTokenInfo ⟨some (.jstr "Coin"), some (.jstr "TOOLONG"), some (.jstr "d"),
        some (.jstr "p")⟩ = false ∧
      getTopTrendAndGenerateToken (.ok ["T"]) []
        (.ok (some ⟨some (.jstr "Coin"), some (.jstr "TOOLONG"), some (.jstr "d"),
          some (.jstr "p")⟩)) = (none, [])) :=
  ⟨⟨by decide,
      claim2_generator_invariant.1 (.ok ["T"]) []
        (.ok (some ⟨some (.jstr "Coin"), some (.jstr "abc"), some (.jstr "d"),
          some (.jstr "p")⟩)) ⟨"Coin", "ABC", "d", "p", "T"⟩ ["T"] (by decide)⟩,
    ⟨by decide,
      claim2_generator_invariant.2.1 ["T"] []
        ⟨some (.jstr "Coin"), some (.jstr "TOOLONG"), some (.jstr "d"), some (.jstr "p")⟩
        (by decide)⟩⟩

/-- C3: when the generated concept fails validation (for example a ticker
of `"TOOLONG"`), `getTopTrendAndGenerateToken` returns `null` with the
used-trends log unchanged, and in general the log grows only when a
concept is accepted. -/
theorem claim3_invalid_token_leaves_log_unchanged :
    (∀ (trends used : List String) (raw : RawToken),
        validateTokenInfo raw = false →
        getTopTrendAndGenerateToken (.ok trends) used (.ok (some raw)) = (none, used)) ∧
    (∀ (trendsRes : Except Unit (List String)) (used : List String)
        (respRes : Except Unit (Option RawToken)),
        (getTopTrendAndGenerateToken trendsRes used respRes).1 = none →
        (getTopTrendAndGenerateToken trendsRes used respRes).2 = used) ∧
    getTopTrendAndGenerateToken (.ok ["AI"]) []
        (.ok (some ⟨some (.jstr "TrendCoin"), some (.jstr "TOOLONG"), some (.jstr "d"),
          some (.jstr "p")⟩)) = (none, []) := by
  refine ⟨fun _ _ _ h => getTopTrend_invalid h, ?_, by decide⟩
  intro trendsRes used respRes h
  cases trendsRes with
  | error e => rfl
  | ok trends =>
    cases hsel : selectTrend trends used with
    | none => simp [getTopTrendAndGenerateToken, hsel]
    | some tr =>
      cases respRes with
      | error e => simp [getTopTrendAndGenerateToken, hsel]
      | ok oraw =>
        cases oraw with
        | none => simp [getTopTrendAndGenerateToken, hsel]
        | some raw =>
          by_cases hv : validateTokenInfo raw = true
          · exfalso
            simp [getTopTrendAndGenerateToken, hsel, hv] at h
          · rw [Bool.not_eq_true] at hv
            simp [getTopTrendAndGenerateToken, hsel, hv]

theorem claim3_witness :
    (validateTokenInfo ⟨some (.jstr "N"), some (.jstr "TOOLONG"), some (.jstr "d"),
        some (.jstr "p")⟩ = false ∧
      getTopTrendAndGenerateToken (.ok ["Web3"]) ["AI"]
        (.ok (some ⟨some (.jstr "N"), some (.jstr "TOOLONG"), some (.jstr "d"),
          some (.jstr "p")⟩)) = (none, ["AI"])) ∧
    ((getTopTrendAndGenerateToken (.ok ["AI"]) ["AI"] (.ok none)).1 = none ∧
      (getTopTrendAndGenerateToken (.ok ["AI"]) ["AI"] (.ok none)).2 = ["AI"]) :=
  ⟨⟨by decide,
      claim3_invalid_token_leaves_log_unchanged.1 ["Web3"] ["AI"]
        ⟨some (.jstr "N"), some (.jstr "TOOLONG"), some (.jstr "d"), some (.jstr "p")⟩
        (by decide)⟩,
    ⟨by decide,
      claim3_invalid_token_leaves_log_unchanged.2.1 (.ok ["AI"]) ["AI"] (.ok none)
        (by decide)⟩⟩

/-- C8: the parsed response with name `"X"`, ticker `"xyz"`, description
`"d"` and image prompt `"p"` is accepted and returned with ticker `"XYZ"`;
validation accepts any all-alphabetic ticker of length 3–5 (lowercase or
mixed case) when the other fields are strings and the name fits in 32
characters; and every accepted concept's ticker consists of uppercase
letters only. -/
theorem claim8_ticker_normalized_uppercase :
    getTopTrendAndGenerateToken (.ok ["T"]) []
        (.ok (some ⟨some (.jstr "X"), some (.jstr "xyz"), some (.jstr "d"),
          some (.jstr "p")⟩))
      = (some ⟨"X", "XYZ", "d", "p", "T"⟩, ["T"]) ∧
    (∀ (name ticker desc img : String),
        name.length ≤ 32 → 3 ≤ ticker.length → ticker.length ≤ 5 →
        ticker.data.all isAsciiAlpha = true →
        validateTokenInfo ⟨some (.jstr name), some (.jstr ticker), some (.jstr desc),
          some (.jstr img)⟩ = true) ∧
    (∀ (trendsRes : Except Unit (List String)) (used : List String)
        (respRes : Except Unit (Option RawToken)) (tok : TokenInfo) (used2 : List String),
        getTopTrendAndGenerateToken trendsRes used respRes = (some tok, used2) →
        ∀ c ∈ tok.ticker.data, 'A' ≤ c ∧ c ≤ 'Z') := by
  refine ⟨by decide, ?_, ?_⟩
  · intro name ticker desc img hn h3 h5 halpha
    have ha : asString (some (.jstr ticker)) = ticker := rfl
    have hb : asString (some (.jstr name)) = name := rfl
    simp only [validateTokenInfo, tickerRegexTest, Bool.and_eq_true, decide_eq_true_eq,
      ha, hb]
    exact ⟨⟨⟨⟨⟨⟨⟨rfl, hn⟩, rfl⟩, h3⟩, h5⟩, ⟨by omega, halpha⟩⟩, rfl⟩, rfl⟩
  · intro trendsRes used respRes tok used2 h
    rcases getTopTrend_success h with ⟨trends, tr, raw, _, _, _, hv, htok, _⟩
    rcases validateTokenInfo_facts hv with ⟨_, _, _, halpha⟩
    subst htok
    exact jsToUpper_mem_upper halpha

theorem claim8_witness :
    (("Mixed" : String).length ≤ 32 ∧ 3 ≤ ("aBcDe" : String).length ∧
      ("aBcDe" : String).length ≤ 5 ∧ ("aBcDe" : String).data.all isAsciiAlpha = true ∧
      validateTokenInfo ⟨some (.jstr "Mixed"), some (.jstr "aBcDe"), some (.jstr "d"),
        some (.jstr "p")⟩ = true) ∧
    (getTopTrendAndGenerateToken (.ok ["T"]) []
        (.ok (some ⟨some (.jstr "X"), some (.jstr "xyz"), some (.jstr "d"),
          some (.jstr "p")⟩))
      = (some ⟨"X", "XYZ", "d", "p", "T"⟩, ["T"]) ∧
      ∀ c ∈ ("XYZ" : String).data, 'A' ≤ c ∧ c ≤ 'Z') :=
  ⟨⟨by decide, by decide, by decide, by decide,
      claim8_ticker_normalized_uppercase.2.1 "Mixed" "aBcDe" "d" "p"
        (by decide) (by decide) (by decide) (by decide)⟩,
    ⟨by decide,
      claim8_ticker_normalized_uppercase.2.2 (.ok ["T"]) []
        (.ok (some ⟨some (.jstr "X"), some (.jstr "xyz"), some (.jstr "d"),
          some (.jstr "p")⟩)) ⟨"X", "XYZ", "d", "p", "T"⟩ ["T"] (by decide)⟩⟩

/-- C4: when the trimmed selection response matches exactly one candidate
under bidirectional substring containment, the engager selects that unique
candidate; when no candidate matches in either direction, the lookup comes
back empty and the pass ends in the warn-and-return `noMatch` outcome
rather than an error; and the response `"12345 is the best"` resolves to
the candidate with id `"12345"`. -/
theorem claim4_unique_match_selected :
    (∀ (response : String) (sliced : List Tweet) (tw : Tweet),
        sliced.filter (tweetMatches (jsTrim response)) = [tw] →
        findSelectedTweet response sliced = some tw) ∧
    (∀ (response : String) (sliced : List Tweet),
        (∀ tw ∈ sliced, tweetMatches (jsTrim response) tw = false) →
        findSelectedTweet response sliced = none) ∧
    (∀ (bot : String) (searchTweets home : List Tweet)
        (shuffle : List Tweet → List Tweet) (response reply : String)
        (sendRes : Except Unit Unit),
        ((shuffle searchTweets).take 20).isEmpty = false →
        (∀ tw ∈ (shuffle searchTweets).take 20,
          tweetMatches (jsTrim response) tw = false) →
        engagePassOutcome bot (.ok searchTweets) shuffle (.ok home)
          (.ok response) (.ok reply) sendRes = PassResult.noMatch) ∧
    findSelectedTweet "12345 is the best" [⟨"12345", "alice", "hello", []⟩]
      = some ⟨"12345", "alice", "hello", []⟩ := by
  have hnone : ∀ (response : String) (sliced : List Tweet),
      (∀ tw ∈ sliced, tweetMatches (jsTrim response) tw = false) →
      findSelectedTweet response sliced = none := by
    intro response sliced h
    exact List.find?_eq_none.mpr fun tw hmem => by rw [h tw hmem]; exact Bool.false_ne_true
  refine ⟨?_, hnone, ?_, by decide⟩
  · intro response sliced tw h
    exact find?_of_filter_eq_singleton _ sliced tw h
  · intro bot searchTweets home shuffle response reply sendRes hne hnomatch
    have hfind := hnone response ((shuffle searchTweets).take 20) hnomatch
    simp only [engagePassOutcome, hne, Bool.false_eq_true, if_false, hfind]

theorem claim4_witness :
    (([⟨"12345", "alice", "hello", []⟩] :
        List Tweet).filter (tweetMatches (jsTrim "12345 is the best"))
      = [⟨"12345", "alice", "hello", []⟩] ∧
      findSelectedTweet "12345 is the best" [⟨"12345", "alice", "hello", []⟩]
        = some ⟨"12345", "alice", "hello", []⟩) ∧
    ((∀ tw ∈ ([⟨"99", "a", "t", []⟩] : List Tweet),
        tweetMatches (jsTrim "zzz") tw = false) ∧
      findSelectedTweet "zzz" [⟨"99", "a", "t", []⟩] = none) ∧
    (((id [⟨"99", "a", "t", []⟩] : List Tweet).take 20).isEmpty = false ∧
      engagePassOutcome "bot" (.ok [⟨"99", "a", "t", []⟩]) id (.ok [])
        (.ok "zzz") (.ok "r") (.ok ()) = PassResult.noMatch) :=
  ⟨⟨by decide,
      claim4_unique_match_selected.1 "12345 is the best"
        [⟨"12345", "alice", "hello", []⟩] ⟨"12345", "alice", "hello", []⟩ (by decide)⟩,
    ⟨by decide,
      claim4_unique_match_selected.2.1 "zzz" [⟨"99", "a", "t", []⟩] (by decide)⟩,
    ⟨by decide,
      claim4_unique_match_selected.2.2.1 "bot" [⟨"99", "a", "t", []⟩] [] id "zzz" "r"
        (.ok ()) (by decide) (by decide)⟩⟩

/-- C6: the thread-exclusion filter applied to the combined pool of
shuffled search results and home-timeline tweets keeps a tweet exactly
when no tweet of its reply thread is authored by the agent's own
username: it removes every candidate with such a thread and no others. -/
theorem claim6_thread_exclusion_exact :
    ∀ (bot : String) (sliced home : List Tweet) (tw : Tweet),
      tw ∈ promptPool bot sliced home ↔
        tw ∈ sliced ++ home ∧ ¬ ∃ t ∈ tw.thread, t.username = bot := by
  intro bot sliced home tw
  simp [promptPool, threadFilter, List.mem_filter, List.any_eq_true]
  tauto

/-- C10: a selection response that trims to the empty string never yields
the `noMatch` abort: the empty string is a substring of every id, so the
bidirectional containment lookup resolves to the first tweet of the
shuffled candidate pool, and (when that tweet is not the agent's own, has
text, and the reply generation and send succeed) that arbitrary tweet is
replied to. -/
theorem claim10_empty_response_matches_first :
    (∀ (response : String), jsTrim response = "" →
      ∀ (tw : Tweet) (rest : List Tweet),
        findSelectedTweet response (tw :: rest) = some tw) ∧
    (∀ (bot : String) (searchTweets home : List Tweet)
        (shuffle : List Tweet → List Tweet) (response reply : String)
        (tw : Tweet) (rest : List Tweet),
        jsTrim response = "" →
        (shuffle searchTweets).take 20 = tw :: rest →
        tw.username ≠ bot → tw.text ≠ "" → reply ≠ "" →
        engagePassOutcome bot (.ok searchTweets) shuffle (.ok home)
          (.ok response) (.ok reply) (.ok ()) = PassResult.replied tw.id) := by
  have hfirst : ∀ (response : String), jsTrim response = "" →
      ∀ (tw : Tweet) (rest : List Tweet),
        findSelectedTweet response (tw :: rest) = some tw := by
    intro response htrim tw rest
    have hm : tweetMatches (jsTrim response) tw = true := by
      rw [htrim]
      simp [tweetMatches, jsIncludes]
    exact List.find?_cons_of_pos rest hm
  refine ⟨hfirst, ?_⟩
  intro bot searchTweets home shuffle response reply tw rest htrim hsl hname htext hreply
  have hfind : findSelectedTweet response (tw :: rest) = some tw :=
    hfirst response htrim tw rest
  have hu : (tw.username == bot) = false := beq_eq_false_iff_ne.mpr hname
  have ht : (tw.text == "") = false := beq_eq_false_iff_ne.mpr htext
  have hr : (reply == "") = false := beq_eq_false_iff_ne.mpr hreply
  simp only [engagePassOutcome, hsl, List.isEmpty_cons, Bool.false_eq_true, if_false,
    hfind, hu, ht, hr]

theorem claim10_witness :
    (jsTrim "  " = "" ∧
      findSelectedTweet "  " [⟨"99", "alice", "hello", []⟩, ⟨"7", "b", "u", []⟩]
        = some ⟨"99", "alice", "hello", []⟩) ∧
    ((id [⟨"99", "alice", "hello", []⟩] : List Tweet).take 20
        = [⟨"99", "alice", "hello", []⟩] ∧
      ("alice" : String) ≠ "bot" ∧ ("hello" : String) ≠ "" ∧ ("ok" : String) ≠ "" ∧
      engagePassOutcome "bot" (.ok [⟨"99", "alice", "hello", []⟩]) id (.ok [])
        (.ok "  ") (.ok "ok") (.ok ()) = PassResult.replied "99") :=
  ⟨⟨by decide,
      claim10_empty_response_matches_first.1 "  " (by decide)
        ⟨"99", "alice", "hello", []⟩ [⟨"7", "b", "u", []⟩]⟩,
    ⟨by decide, by decide, by decide, by decide,
      claim10_empty_response_matches_first.2 "bot" [⟨"99", "alice", "hello", []⟩] []
        id "  " "ok" ⟨"99", "alice", "hello", []⟩ [] (by decide) (by decide)
        (by decide) (by decide) (by decide)⟩⟩

/-- C5 counterexample: the reschedule does not wait for the prior pass to
complete, so passes can overlap. With every drawn delay equal to 1 time
unit and every pass running for 2 units, the second pass starts at time 1
while the first is still running until time 2: the claimed non-overlap
property is false. -/
theorem claim5_counterexample :
    ¬ ∀ (delays durations : Nat → Nat) (k : Nat),
        passEnd delays durations k ≤ passStart delays (k + 1) := by
  intro h
  have h2 := h (fun _ => 1) (fun _ => 2) 0
  simp [passStart, passEnd] at h2

/-- C5 (amended): `engageWithSearchTermsLoop` starts the pass without
awaiting it and arms the next timer immediately, so pass `k+1` starts
exactly `delays k` after pass `k` *started* — a quantity independent of
the pass's outcome; passes are guaranteed not to overlap only when every
pass completes within its drawn delay. -/
theorem claim5_reschedule_from_start :
    (∀ (delays : Nat → Nat) (k : Nat),
        passStart delays (k + 1) = passStart delays k + delays k) ∧
    (∀ (now delay : Nat) (o o' : PassResult),
        nextLoopTime now delay o = nextLoopTime now delay o') ∧
    (∀ (delays durations : Nat → Nat), (∀ k, durations k ≤ delays k) →
        ∀ k, passEnd delays durations k ≤ passStart delays (k + 1)) := by
  refine ⟨fun _ _ => rfl, fun _ _ _ _ => rfl, ?_⟩
  intro delays durations h k
  have : passStart delays (k + 1) = passStart delays k + delays k := rfl
  rw [this, passEnd]
  exact Nat.add_le_add_left (h k) _

theorem claim5_witness :
    (∀ k : Nat, (fun _ : Nat => 2) k ≤ (fun _ : Nat => 3) k) ∧
    passEnd (fun _ => 3) (fun _ => 2) 0 ≤ passStart (fun _ => 3) (0 + 1) :=
  ⟨fun _ => by show (2 : Nat) ≤ 3; omega,
    claim5_reschedule_from_start.2.2 (fun _ => 3) (fun _ => 2)
      (fun _ => by show (2 : Nat) ≤ 3; omega) 0⟩

/-- C9 counterexample: with an empty topic list the pass is not guarded.
The topic pick is `undefined` (`none`) and the pass still invokes
`fetchSearchTweets` with that undefined term: the fetch-invocation record
is `some none`, where the claimed guard would require the fetch not to
happen. -/
theorem claim9_counterexample :
    (engageWithSearchTerms "bot" [] 0 (.ok []) id (.ok []) (.ok "") (.ok "")
        (.ok ())).1 = some none := rfl

/-- C9 (amended): the engagement pass has no guard for an empty topic
list: whatever the other collaborator results, it proceeds to invoke the
search-tweet fetch with an undefined search term; if that call rejects,
the error is swallowed by the pass's top-level catch. -/
theorem claim9_no_empty_topics_guard :
    ∀ (bot : String) (pickIdx : Nat) (searchRes : Except Unit (List Tweet))
      (shuffle : List Tweet → List Tweet) (homeRes : Except Unit (List Tweet))
      (selectRes replyRes : Except Unit String) (sendRes : Except Unit Unit),
      (engageWithSearchTerms bot [] pickIdx searchRes shuffle homeRes selectRes
          replyRes sendRes).1 = some none ∧
      (engageWithSearchTerms bot [] pickIdx (.error ()) shuffle homeRes selectRes
          replyRes sendRes).2 = PassResult.caughtError := by
  intro bot pickIdx searchRes shuffle homeRes selectRes replyRes sendRes
  refine ⟨?_, rfl⟩
  show some (([] : List String).get? pickIdx) = some none
  cases pickIdx <;> rfl

/-- C7 counterexample: not every error raised during an invocation is
caught, logged, and swallowed. In a pass whose control flow reaches the
reply-construction stage (candidate `"9"` selected, not the agent's own,
with text), the un-awaited `getTrends()` call is made; when its promise
rejects, the rejection escapes the pass's `try`/`catch` as an unhandled
promise rejection — uncaught and unlogged, while the pass itself still
runs to `replied`. Likewise a throwing completion callback escapes the
`CREATE_TRENDING_TOKEN` invocation instead of letting it return `false`. -/
theorem claim7_counterexample :
    engagePassUnhandledRejection "bot" (.ok [⟨"9", "a", "t", []⟩]) id (.ok [])
        (.ok "9") (.error ()) = true ∧
    engagePassOutcome "bot" (.ok [⟨"9", "a", "t", []⟩]) id (.ok []) (.ok "9")
        (.ok "r") (.ok ()) = PassResult.replied "9" ∧
    (createTrendingTokenInvocation (.error ()) [] (.ok none) (.ok "m") []
        (.error ())).1 = .error () :=
  ⟨by decide, by decide, rfl⟩

/-- C7 (amended): every error from an *awaited* collaborator call is
caught at the top level of the invocation it occurs in, and never
propagated: the generator returns `null` with the log unchanged (trend
fetch rejected, model call rejected, or response unparseable), the action
handler returns `false` with its caches unchanged (trend fetch rejected,
model call rejected, deployment rejected), the engagement pass ends in
the `caughtError` outcome (search fetch, timeline fetch, selection call,
or reply-generation call rejected) or in the inner-catch `sendFailed`
outcome (posting rejected), and the timer armed for the next pass does
not depend on the pass outcome. The swallowing is not universal, though:
the pass's fire-and-forget `getTrends()` is un-awaited, so no unhandled
rejection arises only while that promise resolves — exactly when the pass
reaches the reply-construction stage and the promise rejects, the
rejection escapes the pass's `try`/`catch`; and a `CREATE_TRENDING_TOKEN`
invocation returns the handler's boolean exactly when the completion
callback does not throw — a throwing callback escapes the handler
instead of yielding `false`. -/
theorem claim7_errors_swallowed :
    (∀ (used : List String) (respRes : Except Unit (Option RawToken)),
        getTopTrendAndGenerateToken (.error ()) used respRes = (none, used)) ∧
    (∀ (trends used : List String),
        getTopTrendAndGenerateToken (.ok trends) used (.error ()) = (none, used)) ∧
    (∀ (trends used : List String),
        getTopTrendAndGenerateToken (.ok trends) used (.ok none) = (none, used)) ∧
    (∀ (used : List String) (contentRes : Except Unit (Option RawContent))
        (deployRes : Except Unit String) (launched : List LaunchedToken),
        createTrendingTokenHandler (.error ()) used contentRes deployRes launched
          = (false, used, launched)) ∧
    (∀ (trends used : List String) (deployRes : Except Unit String)
        (launched : List LaunchedToken),
        createTrendingTokenHandler (.ok trends) used (.error ()) deployRes launched
          = (false, used, launched)) ∧
    (∀ (trends used : List String) (contentRes : Except Unit (Option RawContent))
        (launched : List LaunchedToken),
        createTrendingTokenHandler (.ok trends) used contentRes (.error ()) launched
          = (false, used, launched)) ∧
    (∀ (bot : String) (shuffle : List Tweet → List Tweet)
        (homeRes : Except Unit (List Tweet)) (selectRes replyRes : Except Unit String)
        (sendRes : Except Unit Unit),
        engagePassOutcome bot (.error ()) shuffle homeRes selectRes replyRes sendRes
          = PassResult.caughtError) ∧
    (∀ (bot : String) (searchTweets : List Tweet) (shuffle : List Tweet → List Tweet)
        (selectRes replyRes : Except Unit String) (sendRes : Except Unit Unit),
        engagePassOutcome bot (.ok searchTweets) shuffle (.error ()) selectRes
          replyRes sendRes = PassResult.caughtError) ∧
    (∀ (bot : String) (searchTweets home : List Tweet)
        (shuffle : List Tweet → List Tweet) (replyRes : Except Unit String)
        (sendRes : Except Unit Unit),
        ((shuffle searchTweets).take 20).isEmpty = false →
        engagePassOutcome bot (.ok searchTweets) shuffle (.ok home) (.error ())
          replyRes sendRes = PassResult.caughtError) ∧
    (∀ (bot : String) (searchTweets home : List Tweet)
        (shuffle : List Tweet → List Tweet) (response : String) (tw : Tweet)
        (sendRes : Except Unit Unit),
        findSelectedTweet response ((shuffle searchTweets).take 20) = some tw →
        ((shuffle searchTweets).take 20).isEmpty = false →
        tw.username ≠ bot → tw.text ≠ "" →
        engagePassOutcome bot (.ok searchTweets) shuffle (.ok home) (.ok response)
          (.error ()) sendRes = PassResult.caughtError) ∧
    (∀ (bot : String) (searchTweets home : List Tweet)
        (shuffle : List Tweet → List Tweet) (response reply : String) (tw : Tweet),
        findSelectedTweet response ((shuffle searchTweets).take 20) = some tw →
        ((shuffle searchTweets).take 20).isEmpty = false →
        tw.username ≠ bot → tw.text ≠ "" → reply ≠ "" →
        engagePassOutcome bot (.ok searchTweets) shuffle (.ok home) (.ok response)
          (.ok reply) (.error ()) = PassResult.sendFailed) ∧
    (∀ (now delay : Nat) (o o' : PassResult),
        nextLoopTime now delay o = nextLoopTime now delay o') ∧
    (∀ (bot : String) (searchRes : Except Unit (List Tweet))
        (shuffle : List Tweet → List Tweet) (homeRes : Except Unit (List Tweet))
        (selectRes : Except Unit String),
        engagePassUnhandledRejection bot searchRes shuffle homeRes selectRes (.ok ())
          = false) ∧
    (∀ (bot : String) (searchTweets home : List Tweet)
        (shuffle : List Tweet → List Tweet) (response : String) (tw : Tweet),
        findSelectedTweet response ((shuffle searchTweets).take 20) = some tw →
        ((shuffle searchTweets).take 20).isEmpty = false →
        tw.username ≠ bot → tw.text ≠ "" →
        engagePassUnhandledRejection bot (.ok searchTweets) shuffle (.ok home)
          (.ok response) (.error ()) = true) ∧
    (∀ (trendsRes : Except Unit (List String)) (used : List String)
        (contentRes : Except Unit (Option RawContent)) (deployRes : Except Unit String)
        (launched : List LaunchedToken),
        (createTrendingTokenInvocation trendsRes used contentRes deployRes launched
            (.ok ())).1
          = .ok (createTrendingTokenHandler trendsRes used contentRes deployRes
              launched).1 ∧
        (createTrendingTokenInvocation trendsRes used contentRes deployRes launched
            (.error ())).1 = .error ()) := by
  refine ⟨fun _ _ => rfl, ?_, ?_, fun _ _ _ _ => rfl, ?_, ?_,
    fun _ _ _ _ _ _ => rfl, fun _ _ _ _ _ _ => rfl, ?_, ?_, ?_, fun _ _ _ _ => rfl,
    ?_, ?_, ?_⟩
  · intro trends used
    cases hsel : selectTrend trends used with
    | none => simp [getTopTrendAndGenerateToken, hsel]
    | some tr => simp [getTopTrendAndGenerateToken, hsel]
  · intro trends used
    cases hsel : selectTrend trends used with
    | none => simp [getTopTrendAndGenerateToken, hsel]
    | some tr => simp [getTopTrendAndGenerateToken, hsel]
  · intro trends used deployRes launched
    cases hhd : trends.head? with
    | none => simp only [createTrendingTokenHandler, hhd]
    | some topTrend =>
      cases hu : used.contains topTrend with
      | true => simp only [createTrendingTokenHandler, hhd, hu, if_true]
      | false =>
        simp only [createTrendingTokenHandler, hhd, hu, Bool.false_eq_true, if_false]
  · intro trends used contentRes launched
    cases hhd : trends.head? with
    | none => simp only [createTrendingTokenHandler, hhd]
    | some topTrend =>
      cases hu : used.contains topTrend with
      | true => simp only [createTrendingTokenHandler, hhd, hu, if_true]
      | false =>
        cases contentRes with
        | error e =>
          simp only [createTrendingTokenHandler, hhd, hu, Bool.false_eq_true, if_false]
        | ok ocontent =>
          cases ocontent with
          | none =>
            simp only [createTrendingTokenHandler, hhd, hu, Bool.false_eq_true, if_false]
          | some content =>
            cases hc : isTrendingTokenContent content with
            | true =>
              simp only [createTrendingTokenHandler, hhd, hu, hc, Bool.false_eq_true,
                if_false, if_true]
            | false =>
              simp only [createTrendingTokenHandler, hhd, hu, hc, Bool.false_eq_true,
                if_false]
  · intro bot searchTweets home shuffle replyRes sendRes hne
    simp only [engagePassOutcome, hne, Bool.false_eq_true, if_false]
  · intro bot searchTweets home shuffle response tw sendRes hfind hne hname htext
    have hu : (tw.username == bot) = false := beq_eq_false_iff_ne.mpr hname
    have ht : (tw.text == "") = false := beq_eq_false_iff_ne.mpr htext
    simp only [engagePassOutcome, hne, Bool.false_eq_true, if_false, hfind, hu, ht]
  · intro bot searchTweets home shuffle response reply tw hfind hne hname htext hreply
    have hu : (tw.username == bot) = false := beq_eq_false_iff_ne.mpr hname
    have ht : (tw.text == "") = false := beq_eq_false_iff_ne.mpr htext
    have hr : (reply == "") = false := beq_eq_false_iff_ne.mpr hreply
    simp only [engagePassOutcome, hne, Bool.false_eq_true, if_false, hfind, hu, ht, hr]
  · intro bot searchRes shuffle homeRes selectRes
    simp only [engagePassUnhandledRejection]
    repeat' split
    all_goals rfl
  · intro bot searchTweets home shuffle response tw hfind hne hname htext
    have hu : (tw.username == bot) = false := beq_eq_false_iff_ne.mpr hname
    have ht : (tw.text == "") = false := beq_eq_false_iff_ne.mpr htext
    simp only [engagePassUnhandledRejection, hne, Bool.false_eq_true, if_false,
      hfind, hu, ht]
  · intro trendsRes used contentRes deployRes launched
    rcases hr : createTrendingTokenHandler trendsRes used contentRes deployRes launched
      with ⟨ok, used2, launched2⟩
    constructor
    · simp only [createTrendingTokenInvocation, hr]
    · simp only [createTrendingTokenInvocation, hr]

theorem claim7_witness :
    ((((id [⟨"9", "a", "t", []⟩] : List Tweet).take 20).isEmpty = false ∧
      engagePassOutcome "bot" (.ok [⟨"9", "a", "t", []⟩]) id (.ok []) (.error ())
        (.ok "r") (.ok ()) = PassResult.caughtError) ∧
    (findSelectedTweet "9" ((id [⟨"9", "a", "t", []⟩] : List Tweet).take 20)
        = some ⟨"9", "a", "t", []⟩ ∧
      engagePassOutcome "bot" (.ok [⟨"9", "a", "t", []⟩]) id (.ok []) (.ok "9")
        (.error ()) (.ok ()) = PassResult.caughtError) ∧
    (engagePassOutcome "bot" (.ok [⟨"9", "a", "t", []⟩]) id (.ok []) (.ok "9")
        (.ok "r") (.error ()) = PassResult.sendFailed) ∧
    (findSelectedTweet "9" ((id [⟨"9", "a", "t", []⟩] : List Tweet).take 20)
        = some ⟨"9", "a", "t", []⟩ ∧
      engagePassUnhandledRejection "bot" (.ok [⟨"9", "a", "t", []⟩]) id (.ok [])
        (.ok "9") (.error ()) = true)) :=
  ⟨⟨by decide,
      claim7_errors_swallowed.2.2.2.2.2.2.2.2.1 "bot" [⟨"9", "a", "t", []⟩] [] id
        (.ok "r") (.ok ()) (by decide)⟩,
    ⟨by decide,
      claim7_errors_swallowed.2.2.2.2.2.2.2.2.2.1 "bot" [⟨"9", "a", "t", []⟩] [] id
        "9" ⟨"9", "a", "t", []⟩ (.ok ()) (by decide) (by decide) (by decide)
        (by decide)⟩,
    claim7_errors_swallowed.2.2.2.2.2.2.2.2.2.2.1 "bot" [⟨"9", "a", "t", []⟩] [] id
      "9" "r" ⟨"9", "a", "t", []⟩ (by decide) (by decide) (by decide) (by decide)
      (by decide),
    ⟨by decide,
      claim7_errors_swallowed.2.2.2.2.2.2.2.2.2.2.2.2.2.1 "bot"
        [⟨"9", "a", "t", []⟩] [] id "9" ⟨"9", "a", "t", []⟩ (by decide) (by decide)
        (by decide) (by decide)⟩⟩

end Newee
